import Mathlib

set_option linter.unusedVariables false

/-!
Shallow embedding of the uptechstar-rs foreign-function binding
(src/extern_lib.rs, src/adc_io.rs, src/display.rs, src/mpu.rs).

Each Rust adapter resolves a symbol in the dynamically loaded vendor
library and invokes it.  The native calls are modelled as explicit
inputs (the value the native function returns, and the bytes it writes
into caller-supplied buffers); each adapter is then a pure function of
those inputs, returning its Rust return value together with the list of
log records it emits through the log crate macros (info!, debug!,
error!).  Panics raised by Symbol resolution failure are modelled by an
explicit Outcome type.
-/

namespace Uptech

/-- Severity of a record emitted through the log crate macros used by the
adapters. -/
inductive LogLevel where
  | info
  | debug
  | error
deriving DecidableEq

/-- One record emitted to the log sink. -/
structure LogEntry where
  level : LogLevel
  msg : String
deriving DecidableEq

/-- Return value of an adapter call together with the log records it
emitted, in order. -/
structure CallResult (α : Type) where
  ret : α
  log : List LogEntry
deriving DecidableEq

/-- The log contains at least one error-level record. -/
def hasErrorLog (l : List LogEntry) : Prop :=
  ∃ e ∈ l, e.level = LogLevel.error

namespace AdcIo

/-- Error message of adc_open (src/adc_io.rs lines 30-33). -/
def adcOpenErrMsg : String :=
  "Failed to open ADC-IO. Do check if the channel is opened by calling adc_io_open() and the libuptech.so being loaded properly"

/-- Embedding of adc_open (src/adc_io.rs lines 19-40): logs an info
record, invokes the native adc_io_open (whose return value is the
input open_times), logs an error when it is -1 and a debug record
otherwise, and returns the native value verbatim. -/
def adc_open (open_times : Int) : CallResult Int :=
  { ret := open_times
    log := ⟨LogLevel.info, "Initializing ADC-IO"⟩ ::
      (if open_times = -1 then [⟨LogLevel.error, adcOpenErrMsg⟩]
       else [⟨LogLevel.debug, s!"ADC-IO open {open_times} times"⟩]) }

/-- Error message of adc_close (src/adc_io.rs lines 66-69). -/
def adcCloseErrMsg : String :=
  "Failed to close ADC-IO. Do check if the channel is opened by calling adc_io_open() and the libuptech.so being loaded properly"

/-- Embedding of adc_close (src/adc_io.rs lines 55-76): returns the
native adc_io_close value verbatim, logging an error when it is -1. -/
def adc_close (result : Int) : CallResult Int :=
  { ret := result
    log := ⟨LogLevel.info, "Closing ADC-IO"⟩ ::
      (if result = -1 then [⟨LogLevel.error, adcCloseErrMsg⟩]
       else [⟨LogLevel.debug, "ADC-IO closed"⟩]) }

/-- Error log message of adc_get_all_channels (src/adc_io.rs lines 104-107). -/
def adcGetAllErrMsg : String :=
  "Failed to get all ADC channels. Do check if the channel is opened by calling adc_io_open() and the libuptech.so being loaded properly"

/-- The fixed error value adc_get_all_channels returns to its caller
(src/adc_io.rs line 108). -/
def adcGetAllErrVal : String := "Failed to get all ADC channels"

/-- Result of adc_get_all_channels: the Rust Result value, the caller's
10-element buffer after the call, and the emitted log. -/
structure AdcGetAllResult where
  ret : Except String Unit
  buf : Fin 10 → Int
  log : List LogEntry

/-- Embedding of adc_get_all_channels (src/adc_io.rs lines 95-113).
The native ADC_GetAll receives a pointer to the caller's buffer; it is
modelled as a function from the buffer contents to the contents it
leaves behind paired with its status code.  The adapter passes the
buffer pointer through untouched, returns Ok on status 0 and a fixed
error string otherwise, logging an error in the failure case. -/
def adc_get_all_channels (native : (Fin 10 → Int) → (Fin 10 → Int) × Int)
    (adc_data : Fin 10 → Int) : AdcGetAllResult :=
  let r := native adc_data
  if r.2 ≠ 0 then
    { ret := Except.error adcGetAllErrVal
      buf := r.1
      log := [⟨LogLevel.error, adcGetAllErrMsg⟩] }
  else
    { ret := Except.ok ()
      buf := r.1
      log := [] }

/-- Exact name of the native symbol read by io_get_all_channels
(src/adc_io.rs line 142). -/
def inputGetAllSymbol : String := "adc_io_InputGetAll"

/-- Embedding of io_get_all_channels (src/adc_io.rs lines 139-147):
returns the 8-bit mask produced by the native adc_io_InputGetAll call,
paired with the list of native symbols it invoked. -/
def io_get_all_channels (nativeMask : Nat) : Nat × List String :=
  (nativeMask, [inputGetAllSymbol])

/-- Embedding of get_io_level (src/adc_io.rs lines 165-167): reads the
full mask through io_get_all_channels, then shifts and masks to isolate
bit index.  The second component is the list of native symbols invoked. -/
def get_io_level (nativeMask : Nat) (index : Nat) : Nat × List String :=
  let r := io_get_all_channels nativeMask
  ((r.1 >>> index) &&& 1, r.2)

/-- Error message of set_all_io_levels (src/adc_io.rs lines 203-206). -/
def setAllIoLevelsErrMsg : String :=
  "Failed to set all IO level. Do check if the channel is opened by calling adc_io_open() and the libuptech.so being loaded properly"

/-- Embedding of set_all_io_levels (src/adc_io.rs lines 194-211):
returns the native adc_io_SetAll value verbatim, logging an error when
it is nonzero. -/
def set_all_io_levels (result : Int) : CallResult Int :=
  { ret := result
    log := if result ≠ 0 then [⟨LogLevel.error, setAllIoLevelsErrMsg⟩] else [] }

/-- Error message of flip_io_level (src/adc_io.rs lines 243-246). -/
def flipIoLevelErrMsg (index : Nat) : String :=
  s!"Failed to flip IO level, index: {index}. Do check if the channel is opened by calling adc_io_open() and the libuptech.so being loaded properly"

/-- Embedding of flip_io_level (src/adc_io.rs lines 234-252): returns
the native adc_io_Set value verbatim, logging an error when it is -1. -/
def flip_io_level (index : Nat) (result : Int) : CallResult Int :=
  { ret := result
    log := if result = -1 then [⟨LogLevel.error, flipIoLevelErrMsg index⟩] else [] }

/-- Error message of get_all_io_mode (src/adc_io.rs lines 286-289). -/
def getAllIoModeErrMsg : String :=
  "Failed to get all IO mode. Do check if the channel is opened by calling adc_io_open() and the libuptech.so being loaded properly"

/-- Embedding of get_all_io_mode (src/adc_io.rs lines 278-294): the
native adc_io_ModeGetAll writes the mode mask into a local buffer and
returns a status; the adapter returns the buffer regardless, logging an
error when the status is nonzero. -/
def get_all_io_mode (nativeStatus : Int) (nativeBuf : Nat) : CallResult Nat :=
  { ret := nativeBuf
    log := if nativeStatus ≠ 0 then [⟨LogLevel.error, getAllIoModeErrMsg⟩] else [] }

/-- One native adc_io_ModeSet invocation per index of the list, in
order, mirroring the for loop of set_all_io_mode (src/adc_io.rs lines
320-324).  Each element of the result pairs the channel index passed to
the native call with the status code the call returned. -/
def modeSetTrace (native : Nat → Int → Int) (mode : Int) : List Nat → List (Nat × Int)
  | [] => []
  | i :: rest => (i, native i mode) :: modeSetTrace native mode rest

/-- Error message of set_all_io_mode (src/adc_io.rs lines 327-331). -/
def setAllIoModeErrMsg (mode : Nat) : String :=
  s!"Failed to set all IO mode to {mode}. Do check if the channel is opened by calling adc_io_open() and the libuptech.so being loaded properly"

/-- Result of set_all_io_mode: the Rust return value, the channel
indices passed to the native adc_io_ModeSet in order, and the log. -/
structure ModeSetResult where
  ret : Int
  calls : List Nat
  log : List LogEntry

/-- Embedding of set_all_io_mode (src/adc_io.rs lines 313-337): loops
over indices 0..8, calling the native adc_io_ModeSet once per index
with the mode cast to i32, records whether any call returned nonzero,
and returns -1 (after logging an error) when one did, else 0. -/
def set_all_io_mode (native : Nat → Int → Int) (mode : Nat) : ModeSetResult :=
  let trace := modeSetTrace native (Int.ofNat mode) (List.range 8)
  let failed := trace.any (fun c => c.2 != 0)
  { ret := if failed then -1 else 0
    calls := trace.map Prod.fst
    log := if failed then [⟨LogLevel.error, setAllIoModeErrMsg mode⟩] else [] }

/-- Error message of set_io_mode (src/adc_io.rs lines 366-370). -/
def setIoModeErrMsg (index : Nat) (mode : Nat) : String :=
  s!"Failed to set IO mode, index: {index}, mode: {mode}. Do check if the channel is opened by calling adc_io_open() and the libuptech.so being loaded properly"

/-- Embedding of set_io_mode (src/adc_io.rs lines 357-375): returns the
native adc_io_ModeSet value verbatim, logging an error when it is
nonzero. -/
def set_io_mode (index : Nat) (mode : Nat) (result : Int) : CallResult Int :=
  { ret := result
    log := if result ≠ 0 then [⟨LogLevel.error, setIoModeErrMsg index mode⟩] else [] }

end AdcIo

namespace Display

/-- Embedding of the ScreenDirection enum (src/display.rs lines 8-12). -/
inductive ScreenDirection where
  | Vertical
  | Horizontal
deriving DecidableEq

/-- Discriminant values of ScreenDirection (Vertical = 1, Horizontal = 2),
as passed to the native lcd_open. -/
def ScreenDirection.code : ScreenDirection → Int
  | .Vertical => 1
  | .Horizontal => 2

/-- Embedding of ScreenDirection::width (src/display.rs lines 16-21). -/
def ScreenDirection.width : ScreenDirection → Int
  | .Vertical => 64
  | .Horizontal => 128

/-- Embedding of ScreenDirection::height (src/display.rs lines 24-29). -/
def ScreenDirection.height : ScreenDirection → Int
  | .Vertical => 128
  | .Horizontal => 64

/-- Embedding of the FontSize enum (src/display.rs lines 34-50). -/
inductive FontSize where
  | Font4x6
  | Font5x8
  | Font5x12
  | Font6x8
  | Font6x10
  | Font7x12
  | Font8x8
  | Font8x12
  | Font8x14
  | Font10x16
  | Font12x16
  | Font12x20
  | Font16x26
  | Font22x36
  | Font24x40
deriving DecidableEq

/-- Embedding of FontSize::row_height (src/display.rs lines 54-72). -/
def FontSize.row_height : FontSize → Int
  | .Font4x6 => 6
  | .Font5x8 => 8
  | .Font5x12 => 12
  | .Font6x8 => 8
  | .Font6x10 => 10
  | .Font7x12 => 12
  | .Font8x8 => 8
  | .Font8x12 => 12
  | .Font8x14 => 14
  | .Font10x16 => 16
  | .Font12x16 => 16
  | .Font12x20 => 20
  | .Font16x26 => 26
  | .Font22x36 => 36
  | .Font24x40 => 40

/-- Embedding of FontSize::column_width (src/display.rs lines 75-93). -/
def FontSize.column_width : FontSize → Int
  | .Font4x6 => 4
  | .Font5x8 => 5
  | .Font5x12 => 5
  | .Font6x8 => 6
  | .Font6x10 => 6
  | .Font7x12 => 7
  | .Font8x8 => 8
  | .Font8x12 => 8
  | .Font8x14 => 8
  | .Font10x16 => 10
  | .Font12x16 => 12
  | .Font12x20 => 12
  | .Font16x26 => 16
  | .Font22x36 => 22
  | .Font24x40 => 24

namespace Color

/-- Embedding of Color::new_color (src/display.rs lines 112-114): packs
three u8 components into a 24-bit value as (r << 16) + (g << 8) + b. -/
def new_color (r g b : Fin 256) : Nat :=
  (r.val <<< 16) + (g.val <<< 8) + b.val

/-- Color::BLACK (src/display.rs line 118). -/
def BLACK : Nat := new_color 0 0 0

/-- Color::WHITE (src/display.rs line 116). -/
def WHITE : Nat := new_color 255 255 255

end Color

/-- Embedding of the Screen struct fields (src/display.rs lines 149-153). -/
structure Screen where
  screen_size : Int × Int
  font_size : FontSize
  screen_dir : Option ScreenDirection
deriving DecidableEq

/-- Embedding of Screen::open (src/display.rs lines 184-197) as a state
transformer: it invokes the native lcd_open (whose return value is
discarded by the source) and stores Some direction in screen_dir. -/
def Screen.open (s : Screen) (direction : ScreenDirection) : Screen :=
  { s with screen_dir := some direction }

/-- Embedding of Screen::close (src/display.rs lines 203-215): invokes
the native lcd_close and leaves every field of the struct unchanged. -/
def Screen.close (s : Screen) : Screen := s

/-- Embedding of Screen::refresh (src/display.rs lines 221-231): native
call only, no field writes. -/
def Screen.refresh (s : Screen) : Screen := s

/-- Embedding of Screen::set_font_size (src/display.rs lines 240-252):
stores the font size in the struct, then invokes the native LCD_SetFont. -/
def Screen.set_font_size (s : Screen) (font_size : FontSize) : Screen :=
  { s with font_size := font_size }

/-- Embedding of Screen::set_fore_color (src/display.rs lines 261-271):
native call only, no field writes. -/
def Screen.set_fore_color (s : Screen) (color : Nat) : Screen := s

/-- Embedding of Screen::set_back_color (src/display.rs lines 280-290):
native call only, no field writes. -/
def Screen.set_back_color (s : Screen) (color : Nat) : Screen := s

/-- Embedding of Screen::set_led_color (src/display.rs lines 300-310):
native call only, no field writes. -/
def Screen.set_led_color (s : Screen) (index : Int) (color : Nat) : Screen := s

/-- Embedding of Screen::set_led_0 (src/display.rs lines 319-321). -/
def Screen.set_led_0 (s : Screen) (color : Nat) : Screen :=
  s.set_led_color 0 color

/-- Embedding of Screen::set_led_1 (src/display.rs lines 330-332). -/
def Screen.set_led_1 (s : Screen) (color : Nat) : Screen :=
  s.set_led_color 1 color

/-- Embedding of Screen::set_all_leds_same (src/display.rs lines 341-345). -/
def Screen.set_all_leds_same (s : Screen) (color : Nat) : Screen :=
  (s.set_led_color 0 color).set_led_color 1 color

/-- Embedding of Screen::set_all_leds_single (src/display.rs lines 355-359). -/
def Screen.set_all_leds_single (s : Screen) (first second : Nat) : Screen :=
  (s.set_led_color 0 first).set_led_color 1 second

/-- Embedding of Screen::set_all_leds_off (src/display.rs lines 367-371). -/
def Screen.set_all_leds_off (s : Screen) : Screen :=
  (s.set_led_color 0 0).set_led_color 1 0

/-- Embedding of Screen::fill_screen (src/display.rs lines 380-390):
native call only, no field writes. -/
def Screen.fill_screen (s : Screen) (color : Nat) : Screen := s

/-- Embedding of Screen::put_string (src/display.rs lines 401-413):
native call only, no field writes. -/
def Screen.put_string (s : Screen) (x y : Int) (display_string : String) : Screen := s

/-- Embedding of Screen::print (src/display.rs lines 422-424). -/
def Screen.print (s : Screen) (display_string : String) : Screen :=
  s.put_string 0 0 display_string

/-- Embedding of Screen::fill_frame (src/display.rs lines 437-447):
native call only, no field writes. -/
def Screen.fill_frame (s : Screen) (x1 y1 x2 y2 : Int) (color : Nat) : Screen := s

/-- Embedding of Screen::fill_round_frame (src/display.rs lines 461-471). -/
def Screen.fill_round_frame (s : Screen) (x1 y1 x2 y2 r : Int) (color : Nat) : Screen := s

/-- Embedding of Screen::fill_circle (src/display.rs lines 483-493). -/
def Screen.fill_circle (s : Screen) (x0 y0 r : Int) (color : Nat) : Screen := s

/-- Embedding of Screen::draw_mesh (src/display.rs lines 506-516). -/
def Screen.draw_mesh (s : Screen) (x1 y1 x2 y2 : Int) (color : Nat) : Screen := s

/-- Embedding of Screen::draw_frame (src/display.rs lines 529-539). -/
def Screen.draw_frame (s : Screen) (x1 y1 x2 y2 : Int) (color : Nat) : Screen := s

/-- Embedding of Screen::draw_round_frame (src/display.rs lines 553-563). -/
def Screen.draw_round_frame (s : Screen) (x1 y1 x2 y2 r : Int) (color : Nat) : Screen := s

/-- Embedding of Screen::draw_pixel (src/display.rs lines 574-584). -/
def Screen.draw_pixel (s : Screen) (x0 y0 : Int) (color : Nat) : Screen := s

/-- Embedding of Screen::draw_circle (src/display.rs lines 596-606). -/
def Screen.draw_circle (s : Screen) (x0 y0 r : Int) (color : Nat) : Screen := s

/-- Embedding of Screen::draw_arc (src/display.rs lines 619-629). -/
def Screen.draw_arc (s : Screen) (x0 y0 r a : Int) (color : Nat) : Screen := s

/-- Embedding of Screen::draw_line (src/display.rs lines 642-652). -/
def Screen.draw_line (s : Screen) (x1 y1 x2 y2 : Int) (color : Nat) : Screen := s

/-- Embedding of Screen::new (src/display.rs lines 163-175): constructs
the struct with screen_size (0, 0), font Font12x20 and the given
direction; when the direction is Some it additionally chains
open, fill_screen(BLACK) and refresh. -/
def Screen.new (screen_dir : Option ScreenDirection) : Screen :=
  let screen : Screen :=
    { screen_size := (0, 0)
      font_size := FontSize.Font12x20
      screen_dir := screen_dir }
  match screen_dir with
  | some dir => ((screen.open dir).fill_screen Color.BLACK).refresh
  | none => screen

end Display

namespace Mpu

/-- Error message of mpu6500_open (src/mpu.rs line 91). -/
def mpu6500OpenErrMsg : String :=
  "Failed to initialize MPU6500. Do check if the channel is opened by calling adc_io_open() and the libuptech.so being loaded properly"

/-- Embedding of mpu6500_open (src/mpu.rs lines 80-98): returns the
native mpu6500_dmp_init value verbatim; logs an error when it is
nonzero and an info record otherwise. -/
def mpu6500_open (result : Int) : CallResult Int :=
  { ret := result
    log := ⟨LogLevel.info, "Initializing MPU6500 6-axis motion processing unit..."⟩ ::
      (if result ≠ 0 then [⟨LogLevel.error, mpu6500OpenErrMsg⟩]
       else [⟨LogLevel.info, "MPU6500 initialized successfully with DMP enabled"⟩]) }

/-- Embedding of mpu6500_get_accel (src/mpu.rs lines 202-211): the
native mpu6500_Get_Accel fills the caller's 3-element buffer and
returns a status code, which the adapter returns verbatim with no
inspection and no logging. -/
def mpu6500_get_accel (nativeStatus : Int) : CallResult Int :=
  { ret := nativeStatus
    log := [] }

/-- Embedding of mpu6500_get_gyro (src/mpu.rs lines 336-345): the
native status code is returned verbatim, no logging. -/
def mpu6500_get_gyro (nativeStatus : Int) : CallResult Int :=
  { ret := nativeStatus
    log := [] }

/-- Embedding of mpu6500_get_attitude (src/mpu.rs lines 510-518): the
native status code is returned verbatim, no logging. -/
def mpu6500_get_attitude (nativeStatus : Int) : CallResult Int :=
  { ret := nativeStatus
    log := [] }

/-- Embedding of mpu_get_gyro_fsr (src/mpu.rs lines 662-672): a local
u16 buffer starts at 0, the native mpu_get_gyro_fsr writes the FSR into
it and returns an i32 status; the source discards that status and
returns the buffer contents, emitting no log record on any path. -/
def mpu_get_gyro_fsr (nativeStatus : Int) (nativeFsr : Nat) : CallResult Nat :=
  { ret := nativeFsr
    log := [] }

/-- Embedding of mpu_get_accel_fsr (src/mpu.rs lines 857-867): as with
the gyro variant, the native i32 status is discarded and the u8 buffer
contents are returned with no logging. -/
def mpu_get_accel_fsr (nativeStatus : Int) (nativeFsr : Nat) : CallResult Nat :=
  { ret := nativeFsr
    log := [] }

/-- Embedding of mpu_set_gyro_fsr (src/mpu.rs lines 1084-1092): native
status returned verbatim, no logging. -/
def mpu_set_gyro_fsr (fsr : Nat) (nativeStatus : Int) : CallResult Int :=
  { ret := nativeStatus
    log := [] }

/-- Embedding of mpu_set_accel_fsr (src/mpu.rs lines 1340-1347): native
status returned verbatim, no logging. -/
def mpu_set_accel_fsr (fsr : Int) (nativeStatus : Int) : CallResult Int :=
  { ret := nativeStatus
    log := [] }

end Mpu

namespace Loader

/-- State of the process-wide LIBRARY cell of src/extern_lib.rs lines
75-88: the loaded handle when present, and how many extraction-and-load
sequences (temp file + write + Library::new) have run so far. -/
structure LoaderState where
  handle : Option Nat
  loads : Nat
deriving DecidableEq

/-- The state of LIBRARY at process start: nothing loaded yet. -/
def initState : LoaderState := { handle := none, loads := 0 }

/-- Modelled from the spec: the single-initialization access semantics
of the once_cell::sync::Lazy cell wrapping LIBRARY (the Lazy
implementation itself is a dependency, not part of src/).  Per the
spec's concurrency model, each access is an atomic step: when the cell
is uninitialized the accessing thread runs the extraction-and-load
closure of src/extern_lib.rs lines 75-88 (modelled as producing the
handle value init and bumping the load counter); otherwise the stored
handle is returned unchanged.  Access lib s h t means one access
started in state s, observed handle h and left state t; concurrent
first access from several threads is modelled by arbitrary
interleavings, i.e. arbitrary sequences of these atomic steps. -/
inductive Access (init : Nat) : LoaderState → Nat → LoaderState → Prop
  | load (n : Nat) :
      Access init ⟨none, n⟩ init ⟨some init, n + 1⟩
  | reuse (h n : Nat) :
      Access init ⟨some h, n⟩ h ⟨some h, n⟩

/-- A sequence of accesses to the LIBRARY cell: Accesses init s hs t
means the accesses happened in order from state s to state t, observing
the handles hs. -/
inductive Accesses (init : Nat) : LoaderState → List Nat → LoaderState → Prop
  | nil (s : LoaderState) : Accesses init s [] s
  | cons {s s2 s3 : LoaderState} {h : Nat} {hs : List Nat} :
      Access init s h s2 → Accesses init s2 hs s3 → Accesses init s (h :: hs) s3

end Loader

/-- Outcome of running an adapter whose symbol resolution may fail: the
Rust Symbol lookup is followed by .expect(msg), which panics with msg
when the symbol is absent; otherwise the adapter body runs to a value. -/
inductive Outcome (α : Type) where
  | panicked (msg : String)
  | returned (v : α)
deriving DecidableEq

/-- Embedding of the LIBRARY.get(name).expect(msg) pattern shared by
every adapter: sym is the resolved native callable when the symbol
exists (here already reduced to the value its invocation produces), and
msg is the expect message; on resolution failure the adapter panics
with msg, otherwise the rest of the adapter body k runs. -/
def expectSym {α β : Type} (sym : Option α) (msg : String) (k : α → β) : Outcome β :=
  match sym with
  | none => Outcome.panicked msg
  | some f => Outcome.returned (k f)

/-- Expect message of the adc_io_open lookup (src/adc_io.rs line 25). -/
def adcOpenExpectMsg : String := "Failed to load adc_io_open function"

/-- Embedding of adc_open including its symbol resolution step
(src/adc_io.rs lines 19-40): sym is Some of the native return value
when adc_io_open resolves, None when it does not. -/
def adc_open_resolved (sym : Option Int) : Outcome (CallResult Int) :=
  expectSym sym adcOpenExpectMsg (fun open_times => AdcIo.adc_open open_times)

/-- Expect message of the adc_io_close lookup (src/adc_io.rs line 61). -/
def adcCloseExpectMsg : String := "Failed to load adc_io_close function"

/-- Embedding of adc_close including its symbol resolution step
(src/adc_io.rs lines 55-76). -/
def adc_close_resolved (sym : Option Int) : Outcome (CallResult Int) :=
  expectSym sym adcCloseExpectMsg (fun result => AdcIo.adc_close result)

/-- Expect message of the ADC_GetAll lookup (src/adc_io.rs line 99). -/
def adcGetAllExpectMsg : String := "Failed to load ADC_GetAll function"

/-- Embedding of adc_get_all_channels including its symbol resolution
step (src/adc_io.rs lines 95-113): sym is Some of the native callable
when ADC_GetAll resolves. -/
def adc_get_all_channels_resolved (adc_data : Fin 10 → Int)
    (sym : Option ((Fin 10 → Int) → (Fin 10 → Int) × Int)) : Outcome AdcIo.AdcGetAllResult :=
  expectSym sym adcGetAllExpectMsg (fun native => AdcIo.adc_get_all_channels native adc_data)

/-- Expect message of the adc_io_InputGetAll lookup (src/adc_io.rs line 143). -/
def inputGetAllExpectMsg : String := "Failed to load adc_io_InputGetAll function"

/-- Embedding of io_get_all_channels including its symbol resolution
step (src/adc_io.rs lines 139-147). -/
def io_get_all_channels_resolved (sym : Option Nat) : Outcome (Nat × List String) :=
  expectSym sym inputGetAllExpectMsg (fun mask => AdcIo.io_get_all_channels mask)

/-- Embedding of get_io_level including the symbol resolution performed
by the io_get_all_channels call it delegates to (src/adc_io.rs lines
165-167): a resolution failure inside that call propagates as the same
panic. -/
def get_io_level_resolved (index : Nat) (sym : Option Nat) : Outcome (Nat × List String) :=
  match io_get_all_channels_resolved sym with
  | Outcome.panicked m => Outcome.panicked m
  | Outcome.returned r => Outcome.returned ((r.1 >>> index) &&& 1, r.2)

/-- Expect message of the adc_io_SetAll lookup (src/adc_io.rs line 198). -/
def setAllIoLevelsExpectMsg : String := "Failed to load adc_io_SetAll function"

/-- Embedding of set_all_io_levels including its symbol resolution step
(src/adc_io.rs lines 194-211). -/
def set_all_io_levels_resolved (sym : Option Int) : Outcome (CallResult Int) :=
  expectSym sym setAllIoLevelsExpectMsg (fun result => AdcIo.set_all_io_levels result)

/-- Expect message of the adc_io_Set lookup (src/adc_io.rs line 238). -/
def adcIoSetExpectMsg : String := "Failed to load adc_io_Set function"

/-- Embedding of flip_io_level including its symbol resolution step
(src/adc_io.rs lines 234-252). -/
def flip_io_level_resolved (index : Nat) (sym : Option Int) : Outcome (CallResult Int) :=
  expectSym sym adcIoSetExpectMsg (fun result => AdcIo.flip_io_level index result)

/-- Expect message of the adc_io_ModeGetAll lookup (src/adc_io.rs line 283). -/
def modeGetAllExpectMsg : String := "Failed to load adc_io_ModeGetAll function"

/-- Embedding of get_all_io_mode including its symbol resolution step
(src/adc_io.rs lines 278-294): sym pairs the native status with the
buffer contents the native call leaves behind. -/
def get_all_io_mode_resolved (sym : Option (Int × Nat)) : Outcome (CallResult Nat) :=
  expectSym sym modeGetAllExpectMsg (fun r => AdcIo.get_all_io_mode r.1 r.2)

/-- Expect message of the adc_io_ModeSet lookup, shared by
set_all_io_mode and set_io_mode (src/adc_io.rs lines 317 and 361). -/
def modeSetExpectMsg : String := "Failed to load adc_io_ModeSet function"

/-- Embedding of set_all_io_mode including its symbol resolution step
(src/adc_io.rs lines 313-337): the symbol is resolved once before the
loop, so a missing symbol panics before any channel is attempted. -/
def set_all_io_mode_resolved (mode : Nat)
    (sym : Option (Nat → Int → Int)) : Outcome AdcIo.ModeSetResult :=
  expectSym sym modeSetExpectMsg (fun native => AdcIo.set_all_io_mode native mode)

/-- Embedding of set_io_mode including its symbol resolution step
(src/adc_io.rs lines 357-375). -/
def set_io_mode_resolved (index mode : Nat) (sym : Option Int) : Outcome (CallResult Int) :=
  expectSym sym modeSetExpectMsg (fun result => AdcIo.set_io_mode index mode result)

/-- Expect message of the lcd_open lookup (src/display.rs line 190). -/
def lcdOpenExpectMsg : String := "Failed to load lcd_open function"

/-- Embedding of Screen::open including its symbol resolution step
(src/display.rs lines 184-197): on successful resolution the native
lcd_open return value is discarded and screen_dir is updated. -/
def screen_open_resolved (s : Display.Screen) (direction : Display.ScreenDirection)
    (sym : Option Int) : Outcome Display.Screen :=
  expectSym sym lcdOpenExpectMsg (fun ret => s.open direction)

/-- Expect message of the lcd_close lookup (src/display.rs line 209). -/
def lcdCloseExpectMsg : String := "Failed to load lcd_close function"

/-- Embedding of Screen::close including its symbol resolution step
(src/display.rs lines 203-215). -/
def screen_close_resolved (s : Display.Screen) (sym : Option Int) : Outcome Display.Screen :=
  expectSym sym lcdCloseExpectMsg (fun ret => s.close)

/-- Expect message of the LCD_Refresh lookup (src/display.rs line 225). -/
def lcdRefreshExpectMsg : String := "Failed to load LCD_Refresh function"

/-- Embedding of Screen::refresh including its symbol resolution step
(src/display.rs lines 221-231). -/
def screen_refresh_resolved (s : Display.Screen) (sym : Option Int) : Outcome Display.Screen :=
  expectSym sym lcdRefreshExpectMsg (fun ret => s.refresh)

/-- Expect message of the LCD_SetFont lookup (src/display.rs line 246). -/
def lcdSetFontExpectMsg : String := "Failed to load LCD_SetFont function"

/-- Embedding of Screen::set_font_size including its symbol resolution
step (src/display.rs lines 240-252): note the source stores the font
size in the struct before the lookup, but on resolution failure the
panic unwinds, so only the returned-struct path is observable. -/
def screen_set_font_size_resolved (s : Display.Screen) (font_size : Display.FontSize)
    (sym : Option Int) : Outcome Display.Screen :=
  expectSym sym lcdSetFontExpectMsg (fun ret => s.set_font_size font_size)

/-- Expect message of the UG_SetForecolor lookup (src/display.rs line 265). -/
def ugSetForecolorExpectMsg : String := "Failed to load UG_SetForecolor function"

/-- Embedding of Screen::set_fore_color including its symbol resolution
step (src/display.rs lines 261-271). -/
def screen_set_fore_color_resolved (s : Display.Screen) (color : Nat)
    (sym : Option Int) : Outcome Display.Screen :=
  expectSym sym ugSetForecolorExpectMsg (fun ret => s.set_fore_color color)

/-- Expect message of the UG_SetBackcolor lookup (src/display.rs line 284). -/
def ugSetBackcolorExpectMsg : String := "Failed to load UG_SetBackcolor function"

/-- Embedding of Screen::set_back_color including its symbol resolution
step (src/display.rs lines 280-290). -/
def screen_set_back_color_resolved (s : Display.Screen) (color : Nat)
    (sym : Option Int) : Outcome Display.Screen :=
  expectSym sym ugSetBackcolorExpectMsg (fun ret => s.set_back_color color)

/-- Expect message of the adc_led_set lookup (src/display.rs line 304). -/
def adcLedSetExpectMsg : String := "Failed to load adc_led_set function"

/-- Embedding of Screen::set_led_color including its symbol resolution
step (src/display.rs lines 300-310); set_led_0, set_led_1 and the
set_all_leds variants reach native code only through this call, so its
panic path is theirs as well. -/
def screen_set_led_color_resolved (s : Display.Screen) (index : Int) (color : Nat)
    (sym : Option Int) : Outcome Display.Screen :=
  expectSym sym adcLedSetExpectMsg (fun ret => s.set_led_color index color)

/-- Expect message of the UG_FillScreen lookup (src/display.rs line 384). -/
def ugFillScreenExpectMsg : String := "Failed to load UG_FillScreen function"

/-- Embedding of Screen::fill_screen including its symbol resolution
step (src/display.rs lines 380-390). -/
def screen_fill_screen_resolved (s : Display.Screen) (color : Nat)
    (sym : Option Int) : Outcome Display.Screen :=
  expectSym sym ugFillScreenExpectMsg (fun ret => s.fill_screen color)

/-- Expect message of the CString conversion in Screen::put_string
(src/display.rs line 402), raised before symbol resolution when the
string holds an interior NUL character. -/
def cStringNewFailMsg : String := "CString::new failed"

/-- Expect message of the UG_PutString lookup (src/display.rs line 407). -/
def ugPutStringExpectMsg : String := "Failed to load UG_PutString function"

/-- Embedding of Screen::put_string including both panic paths
(src/display.rs lines 401-413): the CString conversion panics first on
an interior NUL, then the UG_PutString lookup panics when unresolved;
Screen::print reaches native code only through this call. -/
def screen_put_string_resolved (s : Display.Screen) (x y : Int) (display_string : String)
    (sym : Option Int) : Outcome Display.Screen :=
  if display_string.data.contains (Char.ofNat 0) then Outcome.panicked cStringNewFailMsg
  else expectSym sym ugPutStringExpectMsg (fun ret => s.put_string x y display_string)

/-- Expect message of the UG_FillFrame lookup (src/display.rs line 441). -/
def ugFillFrameExpectMsg : String := "Failed to load UG_FillFrame function"

/-- Embedding of Screen::fill_frame including its symbol resolution
step (src/display.rs lines 437-447). -/
def screen_fill_frame_resolved (s : Display.Screen) (x1 y1 x2 y2 : Int) (color : Nat)
    (sym : Option Int) : Outcome Display.Screen :=
  expectSym sym ugFillFrameExpectMsg (fun ret => s.fill_frame x1 y1 x2 y2 color)

/-- Expect message of the UG_FillRoundFrame lookup (src/display.rs line 465). -/
def ugFillRoundFrameExpectMsg : String := "Failed to load UG_FillRoundFrame function"

/-- Embedding of Screen::fill_round_frame including its symbol
resolution step (src/display.rs lines 461-471). -/
def screen_fill_round_frame_resolved (s : Display.Screen) (x1 y1 x2 y2 r : Int) (color : Nat)
    (sym : Option Int) : Outcome Display.Screen :=
  expectSym sym ugFillRoundFrameExpectMsg (fun ret => s.fill_round_frame x1 y1 x2 y2 r color)

/-- Expect message of the UG_FillCircle lookup (src/display.rs line 487). -/
def ugFillCircleExpectMsg : String := "Failed to load UG_FillCircle function"

/-- Embedding of Screen::fill_circle including its symbol resolution
step (src/display.rs lines 483-493). -/
def screen_fill_circle_resolved (s : Display.Screen) (x0 y0 r : Int) (color : Nat)
    (sym : Option Int) : Outcome Display.Screen :=
  expectSym sym ugFillCircleExpectMsg (fun ret => s.fill_circle x0 y0 r color)

/-- Expect message of the UG_DrawMesh lookup (src/display.rs line 510). -/
def ugDrawMeshExpectMsg : String := "Failed to load UG_DrawMesh function"

/-- Embedding of Screen::draw_mesh including its symbol resolution step
(src/display.rs lines 506-516). -/
def screen_draw_mesh_resolved (s : Display.Screen) (x1 y1 x2 y2 : Int) (color : Nat)
    (sym : Option Int) : Outcome Display.Screen :=
  expectSym sym ugDrawMeshExpectMsg (fun ret => s.draw_mesh x1 y1 x2 y2 color)

/-- Expect message of the UG_DrawFrame lookup (src/display.rs line 533). -/
def ugDrawFrameExpectMsg : String := "Failed to load UG_DrawFrame function"

/-- Embedding of Screen::draw_frame including its symbol resolution
step (src/display.rs lines 529-539). -/
def screen_draw_frame_resolved (s : Display.Screen) (x1 y1 x2 y2 : Int) (color : Nat)
    (sym : Option Int) : Outcome Display.Screen :=
  expectSym sym ugDrawFrameExpectMsg (fun ret => s.draw_frame x1 y1 x2 y2 color)

/-- Expect message of the UG_DrawRoundFrame lookup (src/display.rs line 557). -/
def ugDrawRoundFrameExpectMsg : String := "Failed to load UG_DrawRoundFrame function"

/-- Embedding of Screen::draw_round_frame including its symbol
resolution step (src/display.rs lines 553-563). -/
def screen_draw_round_frame_resolved (s : Display.Screen) (x1 y1 x2 y2 r : Int) (color : Nat)
    (sym : Option Int) : Outcome Display.Screen :=
  expectSym sym ugDrawRoundFrameExpectMsg (fun ret => s.draw_round_frame x1 y1 x2 y2 r color)

/-- Expect message of the UG_DrawPixel lookup (src/display.rs line 578). -/
def ugDrawPixelExpectMsg : String := "Failed to load UG_DrawPixel function"

/-- Embedding of Screen::draw_pixel including its symbol resolution
step (src/display.rs lines 574-584). -/
def screen_draw_pixel_resolved (s : Display.Screen) (x0 y0 : Int) (color : Nat)
    (sym : Option Int) : Outcome Display.Screen :=
  expectSym sym ugDrawPixelExpectMsg (fun ret => s.draw_pixel x0 y0 color)

/-- Expect message of the UG_DrawCircle lookup (src/display.rs line 600). -/
def ugDrawCircleExpectMsg : String := "Failed to load UG_DrawCircle function"

/-- Embedding of Screen::draw_circle including its symbol resolution
step (src/display.rs lines 596-606). -/
def screen_draw_circle_resolved (s : Display.Screen) (x0 y0 r : Int) (color : Nat)
    (sym : Option Int) : Outcome Display.Screen :=
  expectSym sym ugDrawCircleExpectMsg (fun ret => s.draw_circle x0 y0 r color)

/-- Expect message of the UG_DrawArc lookup (src/display.rs line 623). -/
def ugDrawArcExpectMsg : String := "Failed to load UG_DrawArc function"

/-- Embedding of Screen::draw_arc including its symbol resolution step
(src/display.rs lines 619-629). -/
def screen_draw_arc_resolved (s : Display.Screen) (x0 y0 r arcStart : Int) (color : Nat)
    (sym : Option Int) : Outcome Display.Screen :=
  expectSym sym ugDrawArcExpectMsg (fun ret => s.draw_arc x0 y0 r arcStart color)

/-- Expect message of the UG_DrawLine lookup (src/display.rs line 646). -/
def ugDrawLineExpectMsg : String := "Failed to load UG_DrawLine function"

/-- Embedding of Screen::draw_line including its symbol resolution step
(src/display.rs lines 642-652). -/
def screen_draw_line_resolved (s : Display.Screen) (x1 y1 x2 y2 : Int) (color : Nat)
    (sym : Option Int) : Outcome Display.Screen :=
  expectSym sym ugDrawLineExpectMsg (fun ret => s.draw_line x1 y1 x2 y2 color)

/-- Expect message of the mpu6500_dmp_init lookup (src/mpu.rs line 86). -/
def mpu6500DmpInitExpectMsg : String := "Failed to load mpu6500_dmp_init function"

/-- Embedding of mpu6500_open including its symbol resolution step
(src/mpu.rs lines 80-98). -/
def mpu6500_open_resolved (sym : Option Int) : Outcome (CallResult Int) :=
  expectSym sym mpu6500DmpInitExpectMsg (fun result => Mpu.mpu6500_open result)

/-- Expect message of the mpu6500_Get_Accel lookup (src/mpu.rs line 206). -/
def mpuGetAccelExpectMsg : String := "Failed to load mpu6500_Get_Accel function"

/-- Embedding of mpu6500_get_accel including its symbol resolution step
(src/mpu.rs lines 202-211). -/
def mpu6500_get_accel_resolved (sym : Option Int) : Outcome (CallResult Int) :=
  expectSym sym mpuGetAccelExpectMsg (fun st => Mpu.mpu6500_get_accel st)

/-- Expect message of the mpu6500_Get_Gyro lookup (src/mpu.rs line 340). -/
def mpuGetGyroExpectMsg : String := "Failed to load mpu6500_Get_Gyro function"

/-- Embedding of mpu6500_get_gyro including its symbol resolution step
(src/mpu.rs lines 336-345). -/
def mpu6500_get_gyro_resolved (sym : Option Int) : Outcome (CallResult Int) :=
  expectSym sym mpuGetGyroExpectMsg (fun st => Mpu.mpu6500_get_gyro st)

/-- Expect message of the mpu6500_Get_Attitude lookup (src/mpu.rs line 514). -/
def mpuGetAttitudeExpectMsg : String := "Failed to load mpu6500_Get_Attitude function"

/-- Embedding of mpu6500_get_attitude including its symbol resolution
step (src/mpu.rs lines 510-518). -/
def mpu6500_get_attitude_resolved (sym : Option Int) : Outcome (CallResult Int) :=
  expectSym sym mpuGetAttitudeExpectMsg (fun st => Mpu.mpu6500_get_attitude st)

/-- Expect message of the mpu_get_gyro_fsr lookup (src/mpu.rs line 667). -/
def mpuGetGyroFsrExpectMsg : String := "Failed to load mpu_get_gyro_fsr function"

/-- Embedding of mpu_get_gyro_fsr including its symbol resolution step
(src/mpu.rs lines 662-672). -/
def mpu_get_gyro_fsr_resolved (sym : Option (Int × Nat)) : Outcome (CallResult Nat) :=
  expectSym sym mpuGetGyroFsrExpectMsg (fun r => Mpu.mpu_get_gyro_fsr r.1 r.2)

/-- Expect message of the mpu_get_accel_fsr lookup (src/mpu.rs line 862). -/
def mpuGetAccelFsrExpectMsg : String := "Failed to load mpu_get_accel_fsr function"

/-- Embedding of mpu_get_accel_fsr including its symbol resolution step
(src/mpu.rs lines 857-867). -/
def mpu_get_accel_fsr_resolved (sym : Option (Int × Nat)) : Outcome (CallResult Nat) :=
  expectSym sym mpuGetAccelFsrExpectMsg (fun r => Mpu.mpu_get_accel_fsr r.1 r.2)

/-- Expect message of the mpu_set_gyro_fsr lookup (src/mpu.rs line 1088). -/
def mpuSetGyroFsrExpectMsg : String := "Failed to load mpu_set_gyro_fsr function"

/-- Embedding of mpu_set_gyro_fsr including its symbol resolution step
(src/mpu.rs lines 1084-1092). -/
def mpu_set_gyro_fsr_resolved (fsr : Nat) (sym : Option Int) : Outcome (CallResult Int) :=
  expectSym sym mpuSetGyroFsrExpectMsg (fun st => Mpu.mpu_set_gyro_fsr fsr st)

/-- Expect message of the mpu_set_accel_fsr lookup (src/mpu.rs line 1344). -/
def mpuSetAccelFsrExpectMsg : String := "Failed to load mpu_set_accel_fsr function"

/-- Embedding of mpu_set_accel_fsr including its symbol resolution step
(src/mpu.rs lines 1340-1347). -/
def mpu_set_accel_fsr_resolved (fsr : Int) (sym : Option Int) : Outcome (CallResult Int) :=
  expectSym sym mpuSetAccelFsrExpectMsg (fun st => Mpu.mpu_set_accel_fsr fsr st)

/-- A concrete NUL-free string used to instantiate universally
quantified string arguments. -/
def probeString : String := "x"

/-- The for loop of set_all_io_mode calls the native primitive once per
listed index, in order: projecting the indices out of the call trace
gives back the index list. -/
theorem AdcIo.modeSetTrace_map_fst (native : Nat → Int → Int) (mode : Int) (l : List Nat) :
    (AdcIo.modeSetTrace native mode l).map Prod.fst = l := by
  induction l with
  | nil => rfl
  | cons i rest ih => simp [AdcIo.modeSetTrace, ih]

/-- The failed flag computed over the call trace is set exactly when
some listed index got a nonzero status from the native primitive. -/
theorem AdcIo.modeSetTrace_any_iff (native : Nat → Int → Int) (mode : Int) (l : List Nat) :
    ((AdcIo.modeSetTrace native mode l).any (fun c => c.2 != 0) = true)
      ↔ ∃ i ∈ l, native i mode ≠ 0 := by
  induction l with
  | nil => simp [AdcIo.modeSetTrace]
  | cons i rest ih => simp [AdcIo.modeSetTrace, ih]

/-- Invariant of the LIBRARY cell: either untouched (no handle, no
loads) or fully settled (the loaded handle stored, one load run). -/
def Loader.Settled (init : Nat) (s : Loader.LoaderState) : Prop :=
  (s.handle = none ∧ s.loads = 0) ∨ (s.handle = some init ∧ s.loads = 1)

/-- Once the LIBRARY cell holds the handle after its single load, every
later access observes that same handle and runs no further load. -/
theorem Loader.accesses_from_settled (init : Nat) {s : Loader.LoaderState}
    {hs : List Nat} {t : Loader.LoaderState}
    (hacc : Loader.Accesses init s hs t)
    (h1 : s.handle = some init) (h2 : s.loads = 1) :
    t.handle = some init ∧ t.loads = 1 ∧ ∀ h ∈ hs, h = init := by
  induction hacc with
  | nil s => exact ⟨h1, h2, by simp⟩
  | @cons s s2 s3 h hs ha hrest ih =>
    cases ha with
    | load n => exact absurd h1 (by simp)
    | reuse h n =>
      obtain ⟨i1, i2, i3⟩ := ih h1 h2
      refine ⟨i1, i2, ?_⟩
      intro x hx
      rcases List.mem_cons.mp hx with hx | hx
      · rw [hx]
        exact Option.some.inj h1
      · exact i3 x hx

/-- C4: for every r, g, b in 0..256, Color::new_color(r, g, b) equals
(r<<16)|(g<<8)|b, and extracting bits 16..24, 8..16 and 0..8 of the
packed value recovers exactly r, g and b. -/
theorem new_color_pack_and_roundtrip (r g b : Fin 256) :
    Display.Color.new_color r g b = (r.val <<< 16) ||| ((g.val <<< 8) ||| b.val) ∧
    (Display.Color.new_color r g b) >>> 16 &&& 255 = r.val ∧
    (Display.Color.new_color r g b) >>> 8 &&& 255 = g.val ∧
    (Display.Color.new_color r g b) &&& 255 = b.val := by
  have hr : r.val < 256 := r.isLt
  have hg : g.val < 256 := g.isLt
  have hb : b.val < 256 := b.isLt
  have e255 : (255 : Nat) = 2 ^ 8 - 1 := rfl
  have hsr : r.val <<< 16 = r.val * 2 ^ 16 := Nat.shiftLeft_eq r.val 16
  have hsg : g.val <<< 8 = g.val * 2 ^ 8 := Nat.shiftLeft_eq g.val 8
  refine ⟨?_, ?_, ?_, ?_⟩
  · have h1 : (g.val <<< 8) ||| b.val = g.val <<< 8 + b.val := by
      rw [hsg, Nat.mul_comm]
      exact (Nat.mul_add_lt_is_or (by omega) g.val).symm
    have h2 : (r.val <<< 16) ||| ((g.val <<< 8) ||| b.val)
        = r.val <<< 16 + (g.val <<< 8 + b.val) := by
      rw [h1, hsr, Nat.mul_comm]
      exact (Nat.mul_add_lt_is_or (by rw [hsg]; omega) r.val).symm
    rw [h2]
    simp [Display.Color.new_color, Nat.add_assoc]
  · rw [e255, Nat.and_pow_two_sub_one_eq_mod, Nat.shiftRight_eq_div_pow]
    simp only [Display.Color.new_color, hsr, hsg]
    omega
  · rw [e255, Nat.and_pow_two_sub_one_eq_mod, Nat.shiftRight_eq_div_pow]
    simp only [Display.Color.new_color, hsr, hsg]
    omega
  · rw [e255, Nat.and_pow_two_sub_one_eq_mod]
    simp only [Display.Color.new_color, hsr, hsg]
    omega

/-- C5: for every 8-bit mask m returned by the native adc_io_InputGetAll
and every channel index i in 0..8, get_io_level returns (m >> i) & 1,
and the only native symbol it reads is adc_io_InputGetAll (the full-mask
read of io_get_all_channels): there is no single-channel native read. -/
theorem get_io_level_from_full_mask (m : Fin 256) (i : Fin 8) :
    (AdcIo.get_io_level m.val i.val).1 = (m.val >>> i.val) &&& 1 ∧
    (AdcIo.get_io_level m.val i.val).2 = [AdcIo.inputGetAllSymbol] :=
  ⟨rfl, rfl⟩

/-- C8: every FontSize variant returns its named column width and row
height, and each ScreenDirection variant its documented width and
height (Vertical 64 by 128, Horizontal 128 by 64). -/
theorem font_and_direction_dimensions :
    Display.FontSize.Font4x6.column_width = 4 ∧ Display.FontSize.Font4x6.row_height = 6 ∧
    Display.FontSize.Font5x8.column_width = 5 ∧ Display.FontSize.Font5x8.row_height = 8 ∧
    Display.FontSize.Font5x12.column_width = 5 ∧ Display.FontSize.Font5x12.row_height = 12 ∧
    Display.FontSize.Font6x8.column_width = 6 ∧ Display.FontSize.Font6x8.row_height = 8 ∧
    Display.FontSize.Font6x10.column_width = 6 ∧ Display.FontSize.Font6x10.row_height = 10 ∧
    Display.FontSize.Font7x12.column_width = 7 ∧ Display.FontSize.Font7x12.row_height = 12 ∧
    Display.FontSize.Font8x8.column_width = 8 ∧ Display.FontSize.Font8x8.row_height = 8 ∧
    Display.FontSize.Font8x12.column_width = 8 ∧ Display.FontSize.Font8x12.row_height = 12 ∧
    Display.FontSize.Font8x14.column_width = 8 ∧ Display.FontSize.Font8x14.row_height = 14 ∧
    Display.FontSize.Font10x16.column_width = 10 ∧ Display.FontSize.Font10x16.row_height = 16 ∧
    Display.FontSize.Font12x16.column_width = 12 ∧ Display.FontSize.Font12x16.row_height = 16 ∧
    Display.FontSize.Font12x20.column_width = 12 ∧ Display.FontSize.Font12x20.row_height = 20 ∧
    Display.FontSize.Font16x26.column_width = 16 ∧ Display.FontSize.Font16x26.row_height = 26 ∧
    Display.FontSize.Font22x36.column_width = 22 ∧ Display.FontSize.Font22x36.row_height = 36 ∧
    Display.FontSize.Font24x40.column_width = 24 ∧ Display.FontSize.Font24x40.row_height = 40 ∧
    Display.ScreenDirection.Vertical.width = 64 ∧
    Display.ScreenDirection.Vertical.height = 128 ∧
    Display.ScreenDirection.Horizontal.width = 128 ∧
    Display.ScreenDirection.Horizontal.height = 64 := by
  decide

/-- C10: frame conditions of the Screen methods: new sets screen_size to
(0, 0) and no method ever writes it; open writes only screen_dir
(to Some of its argument); set_font_size writes only font_size; every
other method, close included, leaves the whole record unchanged. -/
theorem screen_state_frame_conditions (s : Display.Screen)
    (od : Option Display.ScreenDirection) (d : Display.ScreenDirection)
    (f : Display.FontSize) (c c2 : Nat) (i x y x2 y2 r a : Int) (str : String) :
    (Display.Screen.new od).screen_size = (0, 0) ∧
    s.open d = { s with screen_dir := some d } ∧
    s.set_font_size f = { s with font_size := f } ∧
    s.close = s ∧
    s.refresh = s ∧
    s.set_fore_color c = s ∧
    s.set_back_color c = s ∧
    s.set_led_color i c = s ∧
    s.set_led_0 c = s ∧
    s.set_led_1 c = s ∧
    s.set_all_leds_same c = s ∧
    s.set_all_leds_single c c2 = s ∧
    s.set_all_leds_off = s ∧
    s.fill_screen c = s ∧
    s.put_string x y str = s ∧
    s.print str = s ∧
    s.fill_frame x y x2 y2 c = s ∧
    s.fill_round_frame x y x2 y2 r c = s ∧
    s.fill_circle x y r c = s ∧
    s.draw_mesh x y x2 y2 c = s ∧
    s.draw_frame x y x2 y2 c = s ∧
    s.draw_round_frame x y x2 y2 r c = s ∧
    s.draw_pixel x y c = s ∧
    s.draw_circle x y r c = s ∧
    s.draw_arc x y r a c = s ∧
    s.draw_line x y x2 y2 c = s := by
  cases od <;>
    exact ⟨rfl, rfl, rfl, rfl, rfl, rfl, rfl, rfl, rfl, rfl, rfl, rfl, rfl,
      rfl, rfl, rfl, rfl, rfl, rfl, rfl, rfl, rfl, rfl, rfl, rfl, rfl⟩

/-- C9: when the named symbol cannot be resolved in the loaded library,
every adapter function in the binding panics with the expect message of
its call site instead of returning a degraded or error value,
enumerated over all 36 resolving call sites of src/adc_io.rs,
src/display.rs and src/mpu.rs, plus get_io_level which resolves through
io_get_all_channels (the remaining public functions: set_led_0,
set_led_1, the set_all_leds variants, print and Screen::new reach
native code only through the enumerated calls). -/
theorem symbol_not_found_is_fatal (s : Display.Screen) (d : Display.ScreenDirection)
    (f : Display.FontSize) (adc_data : Fin 10 → Int) (idx mode c : Nat)
    (i x y x2 y2 r a fsrI : Int) (fsrN : Nat) (str : String)
    (hstr : str.data.contains (Char.ofNat 0) = false) :
    adc_open_resolved none = Outcome.panicked adcOpenExpectMsg ∧
    adc_close_resolved none = Outcome.panicked adcCloseExpectMsg ∧
    adc_get_all_channels_resolved adc_data none = Outcome.panicked adcGetAllExpectMsg ∧
    io_get_all_channels_resolved none = Outcome.panicked inputGetAllExpectMsg ∧
    get_io_level_resolved idx none = Outcome.panicked inputGetAllExpectMsg ∧
    set_all_io_levels_resolved none = Outcome.panicked setAllIoLevelsExpectMsg ∧
    flip_io_level_resolved idx none = Outcome.panicked adcIoSetExpectMsg ∧
    get_all_io_mode_resolved none = Outcome.panicked modeGetAllExpectMsg ∧
    set_all_io_mode_resolved mode none = Outcome.panicked modeSetExpectMsg ∧
    set_io_mode_resolved idx mode none = Outcome.panicked modeSetExpectMsg ∧
    screen_open_resolved s d none = Outcome.panicked lcdOpenExpectMsg ∧
    screen_close_resolved s none = Outcome.panicked lcdCloseExpectMsg ∧
    screen_refresh_resolved s none = Outcome.panicked lcdRefreshExpectMsg ∧
    screen_set_font_size_resolved s f none = Outcome.panicked lcdSetFontExpectMsg ∧
    screen_set_fore_color_resolved s c none = Outcome.panicked ugSetForecolorExpectMsg ∧
    screen_set_back_color_resolved s c none = Outcome.panicked ugSetBackcolorExpectMsg ∧
    screen_set_led_color_resolved s i c none = Outcome.panicked adcLedSetExpectMsg ∧
    screen_fill_screen_resolved s c none = Outcome.panicked ugFillScreenExpectMsg ∧
    screen_put_string_resolved s x y str none = Outcome.panicked ugPutStringExpectMsg ∧
    screen_fill_frame_resolved s x y x2 y2 c none = Outcome.panicked ugFillFrameExpectMsg ∧
    screen_fill_round_frame_resolved s x y x2 y2 r c none
      = Outcome.panicked ugFillRoundFrameExpectMsg ∧
    screen_fill_circle_resolved s x y r c none = Outcome.panicked ugFillCircleExpectMsg ∧
    screen_draw_mesh_resolved s x y x2 y2 c none = Outcome.panicked ugDrawMeshExpectMsg ∧
    screen_draw_frame_resolved s x y x2 y2 c none = Outcome.panicked ugDrawFrameExpectMsg ∧
    screen_draw_round_frame_resolved s x y x2 y2 r c none
      = Outcome.panicked ugDrawRoundFrameExpectMsg ∧
    screen_draw_pixel_resolved s x y c none = Outcome.panicked ugDrawPixelExpectMsg ∧
    screen_draw_circle_resolved s x y r c none = Outcome.panicked ugDrawCircleExpectMsg ∧
    screen_draw_arc_resolved s x y r a c none = Outcome.panicked ugDrawArcExpectMsg ∧
    screen_draw_line_resolved s x y x2 y2 c none = Outcome.panicked ugDrawLineExpectMsg ∧
    mpu6500_open_resolved none = Outcome.panicked mpu6500DmpInitExpectMsg ∧
    mpu6500_get_accel_resolved none = Outcome.panicked mpuGetAccelExpectMsg ∧
    mpu6500_get_gyro_resolved none = Outcome.panicked mpuGetGyroExpectMsg ∧
    mpu6500_get_attitude_resolved none = Outcome.panicked mpuGetAttitudeExpectMsg ∧
    mpu_get_gyro_fsr_resolved none = Outcome.panicked mpuGetGyroFsrExpectMsg ∧
    mpu_get_accel_fsr_resolved none = Outcome.panicked mpuGetAccelFsrExpectMsg ∧
    mpu_set_gyro_fsr_resolved fsrN none = Outcome.panicked mpuSetGyroFsrExpectMsg ∧
    mpu_set_accel_fsr_resolved fsrI none = Outcome.panicked mpuSetAccelFsrExpectMsg := by
  refine ⟨rfl, rfl, rfl, rfl, rfl, rfl, rfl, rfl, rfl, rfl, rfl, rfl, rfl, rfl, rfl,
    rfl, rfl, rfl, ?_, rfl, rfl, rfl, rfl, rfl, rfl, rfl, rfl, rfl, rfl, rfl, rfl,
    rfl, rfl, rfl, rfl, rfl, rfl⟩
  show (if str.data.contains (Char.ofNat 0) then Outcome.panicked cStringNewFailMsg
    else expectSym none ugPutStringExpectMsg (fun ret => s.put_string x y str))
      = Outcome.panicked ugPutStringExpectMsg
  rw [if_neg (by simpa using hstr)]
  rfl

/-- Witness for C9 at concrete inputs (a fresh Screen, channel 0,
color 0, the NUL-free string probeString): the unresolvable lookups
panic with their expect messages. -/
theorem symbol_not_found_is_fatal_witness :
    adc_open_resolved none = Outcome.panicked adcOpenExpectMsg ∧
    screen_open_resolved (Display.Screen.new none) Display.ScreenDirection.Vertical none
      = Outcome.panicked lcdOpenExpectMsg ∧
    screen_put_string_resolved (Display.Screen.new none) 0 0 probeString none
      = Outcome.panicked ugPutStringExpectMsg ∧
    mpu_get_gyro_fsr_resolved none = Outcome.panicked mpuGetGyroFsrExpectMsg := by
  obtain ⟨h1, _, _, _, _, _, _, _, _, _, h11, _, _, _, _, _, _, _, h19, _, _, _, _,
      _, _, _, _, _, _, _, _, _, _, h34, _, _, _⟩ :=
    symbol_not_found_is_fatal (Display.Screen.new none) Display.ScreenDirection.Vertical
      Display.FontSize.Font8x8 (fun _ => 0) 0 0 0 0 0 0 0 0 0 0 0 0 probeString (by decide)
  exact ⟨h1, h11, h19, h34⟩

/-- C3: set_all_io_mode invokes the native adc_io_ModeSet exactly once
for each of the channel indices 0 through 7, in order and regardless of
individual failures, and returns -1 when at least one per-channel call
returned nonzero, 0 when all eight returned zero. -/
theorem set_all_io_mode_best_effort (native : Nat → Int → Int) (mode : Nat) :
    (AdcIo.set_all_io_mode native mode).calls = [0, 1, 2, 3, 4, 5, 6, 7] ∧
    ((AdcIo.set_all_io_mode native mode).ret = -1
      ↔ ∃ i < 8, native i (Int.ofNat mode) ≠ 0) ∧
    ((AdcIo.set_all_io_mode native mode).ret = 0
      ↔ ∀ i < 8, native i (Int.ofNat mode) = 0) := by
  have hcalls : (AdcIo.set_all_io_mode native mode).calls = [0, 1, 2, 3, 4, 5, 6, 7] := by
    show (AdcIo.modeSetTrace native (Int.ofNat mode) (List.range 8)).map Prod.fst = _
    rw [AdcIo.modeSetTrace_map_fst]
    rfl
  have hany := AdcIo.modeSetTrace_any_iff native (Int.ofNat mode) (List.range 8)
  simp only [List.mem_range] at hany
  have key1 : (AdcIo.set_all_io_mode native mode).ret = -1
      ↔ (AdcIo.modeSetTrace native (Int.ofNat mode) (List.range 8)).any
          (fun c => c.2 != 0) = true := by
    show (if (AdcIo.modeSetTrace native (Int.ofNat mode) (List.range 8)).any
        (fun c => c.2 != 0) then (-1 : Int) else 0) = -1 ↔ _
    cases hAv : (AdcIo.modeSetTrace native (Int.ofNat mode) (List.range 8)).any
        (fun c => c.2 != 0) <;> simp
  have key0 : (AdcIo.set_all_io_mode native mode).ret = 0
      ↔ (AdcIo.modeSetTrace native (Int.ofNat mode) (List.range 8)).any
          (fun c => c.2 != 0) = false := by
    show (if (AdcIo.modeSetTrace native (Int.ofNat mode) (List.range 8)).any
        (fun c => c.2 != 0) then (-1 : Int) else 0) = 0 ↔ _
    cases hAv : (AdcIo.modeSetTrace native (Int.ofNat mode) (List.range 8)).any
        (fun c => c.2 != 0) <;> simp
  refine ⟨hcalls, key1.trans hany, ?_⟩
  rw [key0]
  constructor
  · intro hfalse i hi
    by_contra hne
    have htrue := hany.mpr ⟨i, hi, hne⟩
    rw [htrue] at hfalse
    exact Bool.noConfusion hfalse
  · intro hall
    rw [← Bool.not_eq_true]
    intro hA
    obtain ⟨i, hi, hne⟩ := hany.mp hA
    exact hne (hall i hi)

/-- Witness for C3, matching the spec scenario of a primitive that fails
for channel 3 only: all eight channels are still attempted in order and
the overall result is -1. -/
theorem set_all_io_mode_best_effort_witness :
    (AdcIo.set_all_io_mode (fun i _ => if i = 3 then 1 else 0) 1).calls
      = [0, 1, 2, 3, 4, 5, 6, 7] ∧
    (AdcIo.set_all_io_mode (fun i _ => if i = 3 then 1 else 0) 1).ret = -1 := by
  obtain ⟨h1, h2, h3⟩ := set_all_io_mode_best_effort (fun i _ => if i = 3 then 1 else 0) 1
  exact ⟨h1, h2.mpr ⟨3, by decide, by decide⟩⟩

/-- C6: adc_get_all_channels returns Ok exactly when the native
ADC_GetAll status is 0; on nonzero status it returns the fixed local
error string (not the raw native code) and logs an error, and in every
case the caller's buffer holds exactly what the native call left there. -/
theorem adc_get_all_channels_status_and_buffer
    (native : (Fin 10 → Int) → (Fin 10 → Int) × Int) (adc_data : Fin 10 → Int) :
    ((AdcIo.adc_get_all_channels native adc_data).ret = Except.ok () ↔ (native adc_data).2 = 0) ∧
    (AdcIo.adc_get_all_channels native adc_data).buf = (native adc_data).1 ∧
    ((native adc_data).2 ≠ 0 →
      (AdcIo.adc_get_all_channels native adc_data).ret = Except.error AdcIo.adcGetAllErrVal ∧
      hasErrorLog (AdcIo.adc_get_all_channels native adc_data).log) := by
  by_cases h : (native adc_data).2 = 0
  · refine ⟨?_, ?_, fun hc => absurd h hc⟩
    · simp [AdcIo.adc_get_all_channels, h]
    · simp [AdcIo.adc_get_all_channels, h]
  · refine ⟨?_, ?_, fun _ => ⟨?_, ?_⟩⟩
    · simp [AdcIo.adc_get_all_channels, h]
    · simp [AdcIo.adc_get_all_channels, h]
    · simp [AdcIo.adc_get_all_channels, h]
    · exact ⟨⟨LogLevel.error, AdcIo.adcGetAllErrMsg⟩,
        by simp [AdcIo.adc_get_all_channels, h], rfl⟩

/-- Witness for C6 at a native call that fills the buffer unchanged and
reports status 1: the adapter returns the fixed error value and keeps
the buffer exactly as the native call left it. -/
theorem adc_get_all_channels_status_witness :
    (AdcIo.adc_get_all_channels (fun b => (b, 1)) (fun _ => 0)).ret
      = Except.error AdcIo.adcGetAllErrVal ∧
    (AdcIo.adc_get_all_channels (fun b => (b, 1)) (fun _ => 0)).buf
      = (fun _ => (0 : Int)) := by
  obtain ⟨h1, h2, h3⟩ :=
    adc_get_all_channels_status_and_buffer (fun b => (b, 1)) (fun _ => 0)
  exact ⟨(h3 (by decide)).1, h2⟩

/-- C7: adc_open, set_all_io_levels and flip_io_level return the native
call's value verbatim for every value; on the failure sentinel (-1, or
nonzero for set_all_io_levels) they additionally log an error but still
return the value unchanged. -/
theorem open_set_flip_return_verbatim (v : Int) (idx : Nat) :
    (AdcIo.adc_open v).ret = v ∧
    (AdcIo.set_all_io_levels v).ret = v ∧
    (AdcIo.flip_io_level idx v).ret = v ∧
    (v = -1 → hasErrorLog (AdcIo.adc_open v).log) ∧
    (v ≠ 0 → hasErrorLog (AdcIo.set_all_io_levels v).log) ∧
    (v = -1 → hasErrorLog (AdcIo.flip_io_level idx v).log) := by
  refine ⟨rfl, rfl, rfl, ?_, ?_, ?_⟩
  · intro h
    exact ⟨⟨LogLevel.error, AdcIo.adcOpenErrMsg⟩, by simp [AdcIo.adc_open, h], rfl⟩
  · intro h
    exact ⟨⟨LogLevel.error, AdcIo.setAllIoLevelsErrMsg⟩,
      by simp [AdcIo.set_all_io_levels, h], rfl⟩
  · intro h
    exact ⟨⟨LogLevel.error, AdcIo.flipIoLevelErrMsg idx⟩,
      by simp [AdcIo.flip_io_level, h], rfl⟩

/-- Witness for C7 at the failure sentinel -1 (index 3 for flip): the
value is propagated verbatim and an error is logged. -/
theorem open_set_flip_return_verbatim_witness :
    (AdcIo.adc_open (-1)).ret = -1 ∧
    hasErrorLog (AdcIo.adc_open (-1)).log ∧
    hasErrorLog (AdcIo.set_all_io_levels (-1)).log ∧
    hasErrorLog (AdcIo.flip_io_level 3 (-1)).log := by
  obtain ⟨h1, h2, h3, h4, h5, h6⟩ := open_set_flip_return_verbatim (-1) 3
  exact ⟨h1, h4 rfl, h5 (by decide), h6 rfl⟩

/-- C1: starting from the untouched LIBRARY cell, along every sequence
of accesses (arbitrary interleavings of the atomic once-cell steps, so
in particular concurrent first access) at most one extraction-and-load
sequence runs, every access observes the same handle, and after at
least one access the cell holds that handle with exactly one load run. -/
theorem library_loaded_exactly_once (init : Nat) (hs : List Nat) (t : Loader.LoaderState)
    (hacc : Loader.Accesses init Loader.initState hs t) :
    t.loads ≤ 1 ∧ (∀ h ∈ hs, h = init) ∧
    (hs ≠ [] → t.handle = some init ∧ t.loads = 1) := by
  cases hacc with
  | nil => exact ⟨Nat.zero_le 1, by simp, fun hc => absurd rfl hc⟩
  | cons ha hrest =>
    cases ha with
    | load n =>
      obtain ⟨p1, p2, p3⟩ := Loader.accesses_from_settled init hrest rfl rfl
      refine ⟨by simp [p2], ?_, fun _ => ⟨p1, p2⟩⟩
      intro x hx
      rcases List.mem_cons.mp hx with hx | hx
      · exact hx
      · exact p3 x hx

/-- Witness for C1: a two-access trace (a first access that loads, then
a reuse) observes handle 7 twice and ends with exactly one load. -/
theorem library_loaded_exactly_once_witness :
    ({ handle := some 7, loads := 1 } : Loader.LoaderState).loads ≤ 1 ∧
    ({ handle := some 7, loads := 1 } : Loader.LoaderState).handle = some 7 := by
  have hacc : Loader.Accesses 7 Loader.initState [7, 7] ⟨some 7, 1⟩ :=
    Loader.Accesses.cons (Loader.Access.load 0)
      (Loader.Accesses.cons (Loader.Access.reuse 7 1) (Loader.Accesses.nil _))
  obtain ⟨h1, h2, h3⟩ := library_loaded_exactly_once 7 [7, 7] ⟨some 7, 1⟩ hacc
  exact ⟨h1, (h3 (by simp)).1⟩

/-- Counterexample to C2 as stated: at native status 1 (a nonzero
failure report) mpu_get_gyro_fsr emits no diagnostic at all and returns
the buffer value 250 rather than any failure indicator; likewise
mpu_get_accel_fsr, and mpu6500_get_accel logs nothing. -/
theorem mpu_adapters_silent_on_native_failure :
    ((1 : Int) == 0) = false ∧
    (Mpu.mpu_get_gyro_fsr 1 250).log = [] ∧
    (Mpu.mpu_get_gyro_fsr 1 250).ret = 250 ∧
    (Mpu.mpu_get_accel_fsr 1 8).log = [] ∧
    (Mpu.mpu6500_get_accel 1).log = [] :=
  ⟨rfl, rfl, rfl, rfl, rfl⟩

/-- C2 amended: when the underlying native call reports failure, the
ADC-IO adapters and mpu6500_open emit one error diagnostic and return a
failure indicator to the caller — the native value verbatim for
adc_open, adc_close, set_all_io_levels, flip_io_level, set_io_mode and
mpu6500_open, the fixed local error value for adc_get_all_channels, and
the aggregate -1 for set_all_io_mode — while get_all_io_mode logs the
error but still returns the buffer value with no failure indicator; by
contrast mpu_get_gyro_fsr and mpu_get_accel_fsr ignore the native
status code entirely (no diagnostic, buffer value returned regardless),
and the remaining MPU operations (mpu6500_get_accel, mpu6500_get_gyro,
mpu6500_get_attitude, mpu_set_gyro_fsr, mpu_set_accel_fsr) propagate
the native code verbatim without logging. -/
theorem failure_reporting_by_adapter (v : Int) (idx mode bufn fsr : Nat) (st fsrI : Int)
    (native : (Fin 10 → Int) → (Fin 10 → Int) × Int) (adc_data : Fin 10 → Int)
    (nativeMs : Nat → Int → Int) :
    ((AdcIo.adc_open v).ret = v ∧ (v = -1 → hasErrorLog (AdcIo.adc_open v).log)) ∧
    ((AdcIo.adc_close v).ret = v ∧ (v = -1 → hasErrorLog (AdcIo.adc_close v).log)) ∧
    ((native adc_data).2 ≠ 0 →
      hasErrorLog (AdcIo.adc_get_all_channels native adc_data).log ∧
      (AdcIo.adc_get_all_channels native adc_data).ret
        = Except.error AdcIo.adcGetAllErrVal) ∧
    ((AdcIo.set_all_io_levels v).ret = v ∧
      (v ≠ 0 → hasErrorLog (AdcIo.set_all_io_levels v).log)) ∧
    ((AdcIo.flip_io_level idx v).ret = v ∧
      (v = -1 → hasErrorLog (AdcIo.flip_io_level idx v).log)) ∧
    ((AdcIo.get_all_io_mode st bufn).ret = bufn ∧
      (st ≠ 0 → hasErrorLog (AdcIo.get_all_io_mode st bufn).log)) ∧
    ((∃ i < 8, nativeMs i (Int.ofNat mode) ≠ 0) →
      hasErrorLog (AdcIo.set_all_io_mode nativeMs mode).log ∧
      (AdcIo.set_all_io_mode nativeMs mode).ret = -1) ∧
    ((AdcIo.set_io_mode idx mode v).ret = v ∧
      (v ≠ 0 → hasErrorLog (AdcIo.set_io_mode idx mode v).log)) ∧
    ((Mpu.mpu6500_open v).ret = v ∧ (v ≠ 0 → hasErrorLog (Mpu.mpu6500_open v).log)) ∧
    ((Mpu.mpu_get_gyro_fsr st fsr).ret = fsr ∧ (Mpu.mpu_get_gyro_fsr st fsr).log = []) ∧
    ((Mpu.mpu_get_accel_fsr st fsr).ret = fsr ∧ (Mpu.mpu_get_accel_fsr st fsr).log = []) ∧
    ((Mpu.mpu6500_get_accel st).ret = st ∧ (Mpu.mpu6500_get_accel st).log = []) ∧
    ((Mpu.mpu6500_get_gyro st).ret = st ∧ (Mpu.mpu6500_get_gyro st).log = []) ∧
    ((Mpu.mpu6500_get_attitude st).ret = st ∧ (Mpu.mpu6500_get_attitude st).log = []) ∧
    ((Mpu.mpu_set_gyro_fsr fsr st).ret = st ∧ (Mpu.mpu_set_gyro_fsr fsr st).log = []) ∧
    ((Mpu.mpu_set_accel_fsr fsrI st).ret = st ∧ (Mpu.mpu_set_accel_fsr fsrI st).log = []) := by
  refine ⟨⟨rfl, ?_⟩, ⟨rfl, ?_⟩, ?_, ⟨rfl, ?_⟩, ⟨rfl, ?_⟩, ⟨rfl, ?_⟩, ?_, ⟨rfl, ?_⟩,
    ⟨rfl, ?_⟩, ⟨rfl, rfl⟩, ⟨rfl, rfl⟩, ⟨rfl, rfl⟩, ⟨rfl, rfl⟩, ⟨rfl, rfl⟩,
    ⟨rfl, rfl⟩, ⟨rfl, rfl⟩⟩
  · intro h
    exact ⟨⟨LogLevel.error, AdcIo.adcOpenErrMsg⟩, by simp [AdcIo.adc_open, h], rfl⟩
  · intro h
    exact ⟨⟨LogLevel.error, AdcIo.adcCloseErrMsg⟩, by simp [AdcIo.adc_close, h], rfl⟩
  · intro h
    refine ⟨⟨⟨LogLevel.error, AdcIo.adcGetAllErrMsg⟩,
      by simp [AdcIo.adc_get_all_channels, h], rfl⟩, ?_⟩
    simp [AdcIo.adc_get_all_channels, h]
  · intro h
    exact ⟨⟨LogLevel.error, AdcIo.setAllIoLevelsErrMsg⟩,
      by simp [AdcIo.set_all_io_levels, h], rfl⟩
  · intro h
    exact ⟨⟨LogLevel.error, AdcIo.flipIoLevelErrMsg idx⟩,
      by simp [AdcIo.flip_io_level, h], rfl⟩
  · intro h
    exact ⟨⟨LogLevel.error, AdcIo.getAllIoModeErrMsg⟩,
      by simp [AdcIo.get_all_io_mode, h], rfl⟩
  · intro h
    obtain ⟨i, hi, hne⟩ := h
    have hA : (AdcIo.modeSetTrace nativeMs (Int.ofNat mode) (List.range 8)).any
        (fun c => c.2 != 0) = true :=
      (AdcIo.modeSetTrace_any_iff nativeMs (Int.ofNat mode) (List.range 8)).mpr
        ⟨i, List.mem_range.mpr hi, hne⟩
    constructor
    · refine ⟨⟨LogLevel.error, AdcIo.setAllIoModeErrMsg mode⟩, ?_, rfl⟩
      show (⟨LogLevel.error, AdcIo.setAllIoModeErrMsg mode⟩ : LogEntry) ∈
        (if (AdcIo.modeSetTrace nativeMs (Int.ofNat mode) (List.range 8)).any
          (fun c => c.2 != 0)
         then [(⟨LogLevel.error, AdcIo.setAllIoModeErrMsg mode⟩ : LogEntry)] else [])
      rw [if_pos hA]
      exact List.mem_singleton_self _
    · show (if (AdcIo.modeSetTrace nativeMs (Int.ofNat mode) (List.range 8)).any
          (fun c => c.2 != 0) then (-1 : Int) else 0) = -1
      rw [if_pos hA]
  · intro h
    exact ⟨⟨LogLevel.error, AdcIo.setIoModeErrMsg idx mode⟩,
      by simp [AdcIo.set_io_mode, h], rfl⟩
  · intro h
    exact ⟨⟨LogLevel.error, Mpu.mpu6500OpenErrMsg⟩, by simp [Mpu.mpu6500_open, h], rfl⟩

/-- Witness for the amended C2: at the failure sentinels the ADC-IO
adapters log an error and return their failure indicators (verbatim -1,
the fixed local error value, the aggregate -1), while the MPU FSR
getter logs nothing and returns the buffer value. -/
theorem failure_reporting_by_adapter_witness :
    hasErrorLog (AdcIo.adc_open (-1)).log ∧
    hasErrorLog (AdcIo.adc_get_all_channels (fun b => (b, 1)) (fun _ => 0)).log ∧
    (AdcIo.adc_get_all_channels (fun b => (b, 1)) (fun _ => 0)).ret
      = Except.error AdcIo.adcGetAllErrVal ∧
    hasErrorLog (AdcIo.set_all_io_mode (fun _ _ => 1) 1).log ∧
    (AdcIo.set_all_io_mode (fun _ _ => 1) 1).ret = -1 ∧
    (Mpu.mpu_get_gyro_fsr 1 250).ret = 250 ∧
    (Mpu.mpu_get_gyro_fsr 1 250).log = [] := by
  obtain ⟨⟨_, h1⟩, _, h3, _, _, _, h7, _, _, ⟨h10a, h10b⟩, _, _, _, _, _, _⟩ :=
    failure_reporting_by_adapter (-1) 3 1 0 250 1 2 (fun b => (b, 1)) (fun _ => 0)
      (fun _ _ => 1)
  obtain ⟨h3a, h3b⟩ := h3 (by decide)
  obtain ⟨h7a, h7b⟩ := h7 ⟨0, by decide, by decide⟩
  exact ⟨h1 rfl, h3a, h3b, h7a, h7b, h10a, h10b⟩

end Uptech
